import Mathlib

/-!
Shallow embedding of the flight-dynamics core of the Ascent repository.

The source is Rust (bevy/glam, `f32` arithmetic).  The embedding idealizes
`f32` values as exact rationals (`ℚ`).  The one operation that has no exact
rational counterpart, `Vec3::length` (a square root), is passed to each
definition that needs it as an explicit function parameter `len : Vec3 → ℚ`;
theorems either hold for every such `len`, or constrain `len` only at the
points where the source evaluates it.  `glam`'s `Vec3::normalize` returns a
NaN vector when the input has length zero; NaN-valued results are modelled
with `Option` (`none` = the computation produced NaN).
-/

namespace Ascent

/-- Rational model of `glam::Vec3`. -/
structure Vec3 where
  x : ℚ
  y : ℚ
  z : ℚ
deriving DecidableEq, Repr

instance : Add Vec3 := ⟨fun a b => ⟨a.x + b.x, a.y + b.y, a.z + b.z⟩⟩

instance : Sub Vec3 := ⟨fun a b => ⟨a.x - b.x, a.y - b.y, a.z - b.z⟩⟩

instance : Neg Vec3 := ⟨fun a => ⟨-a.x, -a.y, -a.z⟩⟩

/-- `Vec3::ZERO`. -/
def Vec3.zero : Vec3 := ⟨0, 0, 0⟩

/-- Scalar multiplication `v * c` / `c * v` on `glam::Vec3`. -/
def Vec3.smul (c : ℚ) (v : Vec3) : Vec3 := ⟨c * v.x, c * v.y, c * v.z⟩

/-- `Vec3::dot`. -/
def Vec3.dot (a b : Vec3) : ℚ := a.x * b.x + a.y * b.y + a.z * b.z

/-- `Vec3::cross`. -/
def Vec3.cross (a b : Vec3) : Vec3 :=
  ⟨a.y * b.z - a.z * b.y, a.z * b.x - a.x * b.z, a.x * b.y - a.y * b.x⟩

/-- Assignment `v.y = c` on a `glam::Vec3`. -/
def Vec3.setY (v : Vec3) (c : ℚ) : Vec3 := ⟨v.x, c, v.z⟩

/-- `f32::clamp(x, lo, hi)` (Rust: `min(max(x, lo), hi)`). -/
def clampQ (x lo hi : ℚ) : ℚ := min (max x lo) hi

/-! ### `src/physics/ground_effect.rs` -/

structure GroundEffectParams where
  altitude : ℚ
  wing_span : ℚ
  wing_chord : ℚ
deriving DecidableEq, Repr

/-- `calculate_ground_effect_factor` (ground_effect.rs lines 9-18). -/
def calculate_ground_effect_factor (params : GroundEffectParams) : ℚ :=
  let h_over_b := params.altitude / params.wing_span
  if 1 < h_over_b then 1
  else
    let reduction_factor := (16 * h_over_b) ^ 2 / (1 + (16 * h_over_b) ^ 2)
    1 / (1 - reduction_factor)

/-- `apply_ground_effect_to_lift` (ground_effect.rs lines 20-22). -/
def apply_ground_effect_to_lift (base_lift : Vec3) (ground_effect_factor : ℚ) : Vec3 :=
  Vec3.smul ground_effect_factor base_lift

/-! ### `src/physics/stall.rs` -/

structure StallParams where
  angle_of_attack : ℚ
  critical_angle : ℚ
  post_stall_drop : ℚ
  stall_progression_rate : ℚ
deriving DecidableEq, Repr

/-- `calculate_stall_factor` (stall.rs lines 21-30). -/
def calculate_stall_factor (params : StallParams) : ℚ :=
  if |params.angle_of_attack| ≤ params.critical_angle then 1
  else
    let over_critical := max (|params.angle_of_attack| - params.critical_angle) 0
    let stall_severity := min (over_critical * params.stall_progression_rate) 1
    1 - stall_severity * (1 - params.post_stall_drop)

/-- `calculate_lift_coefficient_with_stall` (stall.rs lines 32-45).  `f32::sin`
is transcendental; it is passed in as `sinQ`. -/
def calculate_lift_coefficient_with_stall (sinQ : ℚ → ℚ) (base_cl : ℚ)
    (angle_of_attack : ℚ) (stall_params : StallParams) : ℚ :=
  let linear_cl := base_cl * sinQ angle_of_attack
  let stall_factor := calculate_stall_factor { stall_params with angle_of_attack := angle_of_attack }
  linear_cl * stall_factor

/-- `calculate_drag_coefficient_stalled` (stall.rs lines 47-58). -/
def calculate_drag_coefficient_stalled (base_cd : ℚ) (angle_of_attack : ℚ)
    (stall_params : StallParams) : ℚ :=
  if |angle_of_attack| ≤ stall_params.critical_angle then base_cd
  else
    let stall_severity :=
      min ((|angle_of_attack| - stall_params.critical_angle) / stall_params.critical_angle) 1
    base_cd * (1 + 3 * stall_severity)

/-! ### `src/physics/thrust.rs` -/

structure ThrustParams where
  thrust_power : ℚ
  thrust_direction : Vec3
  efficiency : ℚ
  propeller_diameter : ℚ
  air_density : ℚ
  velocity : Vec3
deriving DecidableEq, Repr

/-- The `velocity_factor` subterm of `calculate_thrust_force` (thrust.rs lines 16-17). -/
def thrust_velocity_factor (params : ThrustParams) : ℚ :=
  1 - clampQ (Vec3.dot params.velocity params.thrust_direction / 50) 0 (4/5)

/-- `calculate_thrust_force` (thrust.rs lines 13-20). -/
def calculate_thrust_force (params : ThrustParams) : Vec3 :=
  let static_thrust := params.thrust_power * params.efficiency
  let velocity_factor := thrust_velocity_factor params
  Vec3.smul (static_thrust * velocity_factor) params.thrust_direction

/-! ### `src/physics/lift.rs` -/

structure LiftParams where
  air_density : ℚ
  velocity : Vec3
  wing_area : ℚ
  wing_span : ℚ
  wing_chord : ℚ
  angle_of_attack : ℚ
deriving DecidableEq, Repr

/-- `Vec3::Y`, the `world_up` of lift.rs line 25. -/
def world_up : Vec3 := ⟨0, 1, 0⟩

/-- `glam::Vec3::normalize`, which divides by the length and yields a NaN
vector exactly when the input has length zero, i.e. is the zero vector.
`none` models the NaN result. -/
def normalizeOpt (len : Vec3 → ℚ) (v : Vec3) : Option Vec3 :=
  if v = Vec3.zero then none else some (Vec3.smul (1 / len v) v)

/-- `calculate_lift_force` (lift.rs lines 16-29).  A NaN force (from
normalizing a zero cross product) is `none`. -/
def calculate_lift_force (len : Vec3 → ℚ) (params : LiftParams)
    (lift_coefficient : ℚ) : Option Vec3 :=
  let velocity_magnitude := len params.velocity
  if velocity_magnitude < 1/1000 then some Vec3.zero
  else
    let lift_magnitude :=
      1/2 * params.air_density * velocity_magnitude ^ 2 * params.wing_area * lift_coefficient
    (normalizeOpt len params.velocity).bind fun velocity_normalized =>
      (normalizeOpt len
          (Vec3.cross velocity_normalized (Vec3.cross world_up velocity_normalized))).map
        fun lift_direction => Vec3.smul lift_magnitude lift_direction

/-! ### `src/physics/drag.rs` -/

structure DragParams where
  air_density : ℚ
  velocity : Vec3
  wing_area : ℚ
  drag_coefficient : ℚ
  aspect_ratio : ℚ
  efficiency_factor : ℚ
deriving DecidableEq, Repr

/-- `calculate_parasitic_drag` (drag.rs lines 14-23).  `-v.normalize() * mag`
is written as the scalar multiple `(-mag / |v|) · v`; the epsilon guard makes
the normalization safe, so no NaN case arises here. -/
def calculate_parasitic_drag (len : Vec3 → ℚ) (params : DragParams) : Vec3 :=
  let velocity_magnitude := len params.velocity
  if velocity_magnitude < 1/1000 then Vec3.zero
  else
    let drag_magnitude :=
      1/2 * params.air_density * velocity_magnitude ^ 2 * params.wing_area * params.drag_coefficient
    Vec3.smul (-(drag_magnitude) * (1 / velocity_magnitude)) params.velocity

/-- `calculate_induced_drag` (drag.rs lines 25-34).  `π` is irrational and is
passed in as `piQ`. -/
def calculate_induced_drag (len : Vec3 → ℚ) (piQ : ℚ) (params : DragParams)
    (lift_coefficient : ℚ) : Vec3 :=
  let velocity_magnitude := len params.velocity
  if velocity_magnitude < 1/1000 then Vec3.zero
  else
    let induced_drag_coefficient :=
      lift_coefficient ^ 2 / (piQ * params.aspect_ratio * params.efficiency_factor)
    let drag_magnitude :=
      1/2 * params.air_density * velocity_magnitude ^ 2 * params.wing_area * induced_drag_coefficient
    Vec3.smul (-(drag_magnitude) * (1 / velocity_magnitude)) params.velocity

/-- `calculate_total_drag` (drag.rs lines 36-38). -/
def calculate_total_drag (len : Vec3 → ℚ) (piQ : ℚ) (params : DragParams)
    (lift_coefficient : ℚ) : Vec3 :=
  calculate_parasitic_drag len params + calculate_induced_drag len piQ params lift_coefficient

/-! ### `src/simulation/components.rs` and `resources.rs` -/

structure Forces where
  lift : Vec3
  drag : Vec3
  weight : Vec3
  thrust : Vec3
  total : Vec3
deriving DecidableEq, Repr

/-- `Forces::default()`: all force vectors zero. -/
def Forces.default : Forces := ⟨Vec3.zero, Vec3.zero, Vec3.zero, Vec3.zero, Vec3.zero⟩

structure FlightDynamics where
  velocity : Vec3
  acceleration : Vec3
  angular_velocity : Vec3
  forces : Forces
deriving DecidableEq, Repr

structure FlightData where
  altitude : ℚ
  airspeed : ℚ
  vertical_speed : ℚ
  flight_time : ℚ
  distance_traveled : ℚ
deriving DecidableEq, Repr

structure Wing where
  span : ℚ
  chord : ℚ
  area : ℚ
  aspect_ratio : ℚ
  angle_of_attack : ℚ
  lift_coefficient_base : ℚ
  drag_coefficient_base : ℚ
  efficiency_factor : ℚ
deriving DecidableEq, Repr

structure Propulsion where
  thrust_power : ℚ
  thrust_direction : Vec3
  efficiency : ℚ
  propeller_diameter : ℚ
  throttle : ℚ
deriving DecidableEq, Repr

structure Atmosphere where
  air_density : ℚ
  wind_velocity : Vec3
  turbulence_intensity : ℚ
  temperature : ℚ
deriving DecidableEq, Repr

structure SimulationParams where
  gravity : ℚ
  air_density : ℚ
  wind_velocity : Vec3
  simulation_speed : ℚ
  is_running : Bool
deriving DecidableEq, Repr

/-- `simulation/flapping.rs` lines 3-11. -/
structure FlappingWing where
  frequency : ℚ
  amplitude : ℚ
  phase_offset : ℚ
  power_stroke_ratio : ℚ
  twist_amplitude : ℚ
  is_active : Bool
deriving DecidableEq, Repr

/-- A `Wing` child entity of a flyer together with its `FlappingWing`
component, as matched by the `wing_query` of `update_physics`. -/
structure WingEntity where
  wing : Wing
  flapping : FlappingWing
deriving DecidableEq, Repr

/-! ### `update_physics` (systems.rs lines 154-295) -/

/-- One iteration of the per-wing loop of `update_physics` (systems.rs lines
196-274).  The accumulator mirrors `(total_lift, total_drag,
dynamics.forces.thrust)`; `total_lift` is an `Option` because a wing's lift
force can be NaN (see `calculate_lift_force`).  The `StallIndicator` writes
(lines 265-272) touch no state these claims read and are omitted.  `rad15`
stands for the irrational constant `15.0_f32.to_radians()` of line 204, and
`flapThrust` for `flapping::calculate_flapping_thrust`, a trigonometric
function of elapsed time that the source calls only when
`flapping.is_active` (lines 255-263). -/
def wing_step (len : Vec3 → ℚ) (sinQ : ℚ → ℚ) (piQ rad15 : ℚ)
    (flapThrust : FlappingWing → ℚ → ℚ → ℚ → Vec3)
    (atmosphere : Atmosphere) (translation_y : ℚ) (elapsed : ℚ) (velocity : Vec3)
    (acc : Option Vec3 × Vec3 × Vec3) (entity : WingEntity) : Option Vec3 × Vec3 × Vec3 :=
  let wing := entity.wing
  let flapping := entity.flapping
  let airspeed_vector := velocity - atmosphere.wind_velocity
  let stall_params : StallParams :=
    { angle_of_attack := wing.angle_of_attack, critical_angle := rad15,
      post_stall_drop := 1/2, stall_progression_rate := 2 }
  let lift_coefficient :=
    calculate_lift_coefficient_with_stall sinQ wing.lift_coefficient_base
      wing.angle_of_attack stall_params
  let lift_params : LiftParams :=
    { air_density := atmosphere.air_density, velocity := airspeed_vector,
      wing_area := wing.area, wing_span := wing.span, wing_chord := wing.chord,
      angle_of_attack := wing.angle_of_attack }
  let lift_force := calculate_lift_force len lift_params lift_coefficient
  let ground_effect_params : GroundEffectParams :=
    { altitude := translation_y, wing_span := wing.span, wing_chord := wing.chord }
  let ground_effect_factor := calculate_ground_effect_factor ground_effect_params
  let lift_force := lift_force.map fun lf => apply_ground_effect_to_lift lf ground_effect_factor
  let drag_coefficient :=
    calculate_drag_coefficient_stalled wing.drag_coefficient_base
      wing.angle_of_attack stall_params
  let drag_params : DragParams :=
    { air_density := atmosphere.air_density, velocity := airspeed_vector,
      wing_area := wing.area, drag_coefficient := drag_coefficient,
      aspect_ratio := wing.aspect_ratio, efficiency_factor := wing.efficiency_factor }
  let drag_force := calculate_total_drag len piQ drag_params lift_coefficient
  let thrust :=
    if flapping.is_active then
      acc.2.2 + flapThrust flapping wing.area atmosphere.air_density elapsed
    else acc.2.2
  (acc.1.bind fun total_lift => lift_force.map fun lf => total_lift + lf,
   acc.2.1 + drag_force, thrust)

/-- The per-flyer body of `update_physics` (systems.rs lines 169-294): the
early return on the pause flag, then the force accumulation and acceleration
update of one flyer for one tick.  The atmosphere recomputation of lines
173-184 is modelled by taking the current `Atmosphere` as an input; it does
not touch the flyer state this claim set reads.  `none` models a
NaN-poisoned force record.  Note line 262 adds flapping thrust into
`dynamics.forces.thrust` and line 289 adds the base thrust on top of it,
while `forces.thrust` is never reset at the start of the tick: the initial
accumulator carries `dynamics.forces.thrust` over from the previous tick. -/
def update_physics_flyer (len : Vec3 → ℚ) (sinQ : ℚ → ℚ) (piQ rad15 : ℚ)
    (flapThrust : FlappingWing → ℚ → ℚ → ℚ → Vec3)
    (params : SimulationParams) (atmosphere : Atmosphere) (elapsed : ℚ)
    (mass : ℚ) (wings : List WingEntity) (propulsion : Propulsion)
    (translation_y : ℚ) (dynamics : FlightDynamics) : Option FlightDynamics :=
  if params.is_running = false then some dynamics
  else
    let weight : Vec3 := ⟨0, -(mass * params.gravity), 0⟩
    let init : Option Vec3 × Vec3 × Vec3 := (some Vec3.zero, Vec3.zero, dynamics.forces.thrust)
    let acc := wings.foldl
      (wing_step len sinQ piQ rad15 flapThrust atmosphere translation_y elapsed
        dynamics.velocity) init
    acc.1.map fun total_lift =>
      let total_drag := acc.2.1
      let thrust_params : ThrustParams :=
        { thrust_power := propulsion.thrust_power * propulsion.throttle,
          thrust_direction := propulsion.thrust_direction,
          efficiency := propulsion.efficiency,
          propeller_diameter := propulsion.propeller_diameter,
          air_density := atmosphere.air_density,
          velocity := dynamics.velocity }
      let base_thrust := calculate_thrust_force thrust_params
      let thrust := acc.2.2 + base_thrust
      let total := weight + total_lift + total_drag + thrust
      { dynamics with
          acceleration := Vec3.smul (1 / mass) total,
          forces :=
            { lift := total_lift, drag := total_drag, weight := weight,
              thrust := thrust, total := total } }

/-! ### `update_flight_dynamics` (systems.rs lines 297-350) -/

/-- The per-flyer state read and written by `update_flight_dynamics`. -/
structure FlyerState where
  translation : Vec3
  dynamics : FlightDynamics
  flight_data : FlightData
deriving DecidableEq, Repr

/-- The ground-collision classification of `update_flight_dynamics`
(systems.rs lines 320-341): from the post-integration velocity and the
current acceleration, the resolved `(velocity, acceleration)` pair. -/
def resolve_ground_collision (len : Vec3 → ℚ) (velocity acceleration : Vec3) : Vec3 × Vec3 :=
  let impact_velocity := len velocity
  if 20 < impact_velocity then
    (Vec3.zero, Vec3.zero)
  else if 8 < impact_velocity then
    (Vec3.setY (Vec3.smul (3/10) velocity) 0, acceleration)
  else if 3 < impact_velocity then
    (Vec3.setY (Vec3.smul (4/5) velocity) 0, acceleration)
  else
    (Vec3.smul (19/20) (Vec3.setY velocity 0), acceleration)

/-- `update_flight_dynamics` (systems.rs lines 297-350) for one flyer: the
early return on the pause flag, semi-implicit Euler integration, ground
collision at `ground_level = 1.0`, and the unconditional `FlightData`
refresh. -/
def update_flight_dynamics (len : Vec3 → ℚ) (params : SimulationParams)
    (delta_secs : ℚ) (st : FlyerState) : FlyerState :=
  if params.is_running = false then st
  else
    let dt := delta_secs * params.simulation_speed
    let velocity := st.dynamics.velocity + Vec3.smul dt st.dynamics.acceleration
    let displacement := Vec3.smul dt velocity
    let translation := st.translation + displacement
    let ground_level : ℚ := 1
    let contact := translation.y ≤ ground_level
    let translation := if contact then Vec3.setY translation ground_level else translation
    let resolved :=
      if contact then resolve_ground_collision len velocity st.dynamics.acceleration
      else (velocity, st.dynamics.acceleration)
    { translation := translation,
      dynamics := { st.dynamics with velocity := resolved.1, acceleration := resolved.2 },
      flight_data :=
        { altitude := translation.y,
          airspeed := len resolved.1,
          vertical_speed := (resolved.1).y,
          flight_time := st.flight_data.flight_time + dt,
          distance_traveled := st.flight_data.distance_traveled + len displacement } }

/-- The semi-implicit Euler velocity of a tick, `velocity += acceleration * dt`
(systems.rs line 310). -/
def integrated_velocity (params : SimulationParams) (delta_secs : ℚ) (st : FlyerState) : Vec3 :=
  st.dynamics.velocity + Vec3.smul (delta_secs * params.simulation_speed) st.dynamics.acceleration

/-- The post-integration translation of a tick (systems.rs lines 312-313). -/
def integrated_translation (params : SimulationParams) (delta_secs : ℚ) (st : FlyerState) : Vec3 :=
  st.translation +
    Vec3.smul (delta_secs * params.simulation_speed) (integrated_velocity params delta_secs st)

/-! ### `src/simulation/stabilization.rs` -/

structure FlightStabilizer where
  max_velocity : ℚ
  max_angular_velocity : ℚ
  stability_damping : ℚ
  auto_level_strength : ℚ
deriving DecidableEq, Repr

/-- `FlightStabilizer::default()` (stabilization.rs lines 13-21). -/
def FlightStabilizer.default : FlightStabilizer := ⟨50, 2, 49/50, 1/2⟩

/-- The `FlightDynamics` effect of `apply_flight_stabilization`
(stabilization.rs lines 23-45): velocity and angular-velocity limiting and
the unconditional `0.98` stability damping.  Lines 47-62 mutate only
`transform.rotation` (quaternion slerp and pitch clamping) and are not read
by any claim.  The system reads no `SimulationParams` resource at all, so it
has no `is_running` guard; it is registered unconditionally in the `Update`
schedule (simulation/mod.rs). -/
def apply_flight_stabilization_dynamics (len : Vec3 → ℚ)
    (stabilizer : FlightStabilizer) (dynamics : FlightDynamics) : FlightDynamics :=
  let velocity :=
    if stabilizer.max_velocity < len dynamics.velocity then
      Vec3.smul stabilizer.max_velocity (Vec3.smul (1 / len dynamics.velocity) dynamics.velocity)
    else dynamics.velocity
  let angular_velocity :=
    if stabilizer.max_angular_velocity < len dynamics.angular_velocity then
      Vec3.smul stabilizer.max_angular_velocity
        (Vec3.smul (1 / len dynamics.angular_velocity) dynamics.angular_velocity)
    else dynamics.angular_velocity
  { dynamics with
      velocity := Vec3.smul stabilizer.stability_damping velocity,
      angular_velocity := Vec3.smul stabilizer.stability_damping angular_velocity }

/-- `add_ground_avoidance` (stabilization.rs lines 65-86) for one flyer; it
also reads no `SimulationParams` and so has no `is_running` guard. -/
def add_ground_avoidance_dynamics (delta_secs : ℚ) (translation : Vec3)
    (dynamics : FlightDynamics) : FlightDynamics :=
  let altitude := translation.y
  let min_safe_altitude : ℚ := 2
  if altitude < min_safe_altitude ∧ dynamics.velocity.y < 0 then
    let avoidance_strength := (min_safe_altitude - altitude) / min_safe_altitude
    let upward_force := Vec3.smul (avoidance_strength * 500 * delta_secs) ⟨0, 1, 0⟩
    let velocity := dynamics.velocity + upward_force
    let velocity :=
      if velocity.y < -1 then Vec3.setY velocity (velocity.y * (4/5)) else velocity
    { dynamics with velocity := velocity }
  else dynamics

/-! ### Concrete fixtures used by witnesses and counterexamples -/

/-- `SimulationParams::default()` (resources.rs lines 14-22) with
`is_running` toggled on by the Space key (systems.rs line 365):
gravity 9.81, air density 1.225, simulation speed 1. -/
def run_params : SimulationParams :=
  { gravity := 981/100, air_density := 49/40, wind_velocity := Vec3.zero,
    simulation_speed := 1, is_running := true }

/-- `SimulationParams::default()` as spawned: paused (`is_running = false`). -/
def paused_params : SimulationParams :=
  { gravity := 981/100, air_density := 49/40, wind_velocity := Vec3.zero,
    simulation_speed := 1, is_running := false }

/-- The `Propulsion` of the spawned flyer (systems.rs lines 85-91) with full
throttle; the spawn direction `(0, 0.5, 1).normalize()` is irrational, so the
straight-ahead unit direction is used here. -/
def propulsion_example : Propulsion := ⟨500, ⟨0, 0, 1⟩, 17/20, 6/5, 1⟩

/-- The `Atmosphere` of `setup_environment` (systems.rs lines 61-68) with
calm wind. -/
def atmosphere_example : Atmosphere := ⟨49/40, Vec3.zero, 1/10, 15⟩

/-- A flyer at rest: zero velocity, acceleration, angular velocity, and a
default (all-zero) force record, as at spawn (systems.rs lines 92-97). -/
def dynamics_rest : FlightDynamics := ⟨Vec3.zero, Vec3.zero, Vec3.zero, Forces.default⟩

/-- One `update_physics` force-accumulation tick of a stationary flyer with
no attached wing entities, running, at altitude 5.  With no wings, the
`len`, `sinQ`, `piQ`, `rad15` and `flapThrust` parameters are never
consulted, so placeholder values are passed. -/
def force_tick (dynamics : FlightDynamics) : Option FlightDynamics :=
  update_physics_flyer (fun _ => 0) (fun _ => 0) (157/50) (13/50)
    (fun _ _ _ _ => Vec3.zero) run_params atmosphere_example 0 80 []
    propulsion_example 5 dynamics

/-- A flyer coasting at 10 m/s horizontally with everything else at rest. -/
def dynamics_paused_drift : FlightDynamics :=
  ⟨⟨10, 0, 0⟩, Vec3.zero, Vec3.zero, Forces.default⟩

/-- A flyer standing at ground level (altitude 1) moving horizontally at
1 m/s, with zero acceleration. -/
def rest_on_ground_state : FlyerState :=
  ⟨⟨0, 1, 0⟩, ⟨⟨1, 0, 0⟩, Vec3.zero, Vec3.zero, Forces.default⟩, ⟨1, 1, 0, 0, 0⟩⟩

/-- An airborne flyer at altitude 5 coasting at 2 m/s with zero
acceleration. -/
def airborne_rest_state : FlyerState :=
  ⟨⟨0, 5, 0⟩, ⟨⟨2, 0, 0⟩, Vec3.zero, Vec3.zero, Forces.default⟩, ⟨5, 2, 0, 0, 0⟩⟩

/-- A flyer at ground level about to register an impact speed of 25 m/s. -/
def crash_state : FlyerState :=
  ⟨⟨0, 1, 0⟩, ⟨⟨25, 0, 0⟩, Vec3.zero, Vec3.zero, Forces.default⟩, ⟨1, 25, 0, 0, 0⟩⟩

/-- A flyer at ground level about to register an impact speed of 1 m/s. -/
def touchdown_state : FlyerState :=
  ⟨⟨0, 1, 0⟩, ⟨⟨1, 0, 0⟩, Vec3.zero, Vec3.zero, Forces.default⟩, ⟨1, 1, 0, 0, 0⟩⟩

/-- The concrete lift input of claim C5: velocity straight up at 1 m/s (well
above the 0.001 guard), standard density, the spawned wing area. -/
def lift_params_vertical : LiftParams := ⟨49/40, ⟨0, 1, 0⟩, 10, 5, 1, 1/10⟩

/-- The concrete thrust input used by the C9 witness. -/
def thrust_params_example : ThrustParams := ⟨500, ⟨0, 0, 1⟩, 17/20, 6/5, 49/40, ⟨0, 0, 10⟩⟩

/-! ## Theorems -/

theorem Vec3.add_def (a b : Vec3) : a + b = ⟨a.x + b.x, a.y + b.y, a.z + b.z⟩ := rfl

theorem Vec3.sub_def (a b : Vec3) : a - b = ⟨a.x - b.x, a.y - b.y, a.z - b.z⟩ := rfl

@[simp] theorem Vec3.smul_zero_vec (c : ℚ) : Vec3.smul c Vec3.zero = Vec3.zero := by
  simp [Vec3.smul, Vec3.zero]

@[simp] theorem Vec3.zero_smul_vec (v : Vec3) : Vec3.smul 0 v = Vec3.zero := by
  simp [Vec3.smul, Vec3.zero]

@[simp] theorem Vec3.add_zero_vec (v : Vec3) : v + Vec3.zero = v := by
  cases v
  simp [Vec3.add_def, Vec3.zero]

theorem Vec3.dot_smul_left (c : ℚ) (v w : Vec3) :
    Vec3.dot (Vec3.smul c v) w = c * Vec3.dot v w := by
  simp [Vec3.dot, Vec3.smul]
  ring

theorem Vec3.dot_self_nonneg (v : Vec3) : 0 ≤ Vec3.dot v v := by
  have hx := mul_self_nonneg v.x
  have hy := mul_self_nonneg v.y
  have hz := mul_self_nonneg v.z
  simp only [Vec3.dot]
  linarith

/-- C3 (amended): the ground-effect factor equals exactly 1 whenever
`altitude / wing_span` is strictly greater than 1.  The source tests
`h_over_b > 1.0`, so at `altitude / wing_span = 1` exactly the else branch
applies and the factor is 257, not 1 (see the counterexample). -/
theorem ground_effect_factor_one_above_unity_ratio (p : GroundEffectParams)
    (h : 1 < p.altitude / p.wing_span) :
    calculate_ground_effect_factor p = 1 := by
  simp [calculate_ground_effect_factor, h]

/-- Witness for C3 at altitude 10, wing span 5. -/
theorem ground_effect_factor_one_above_unity_ratio_witness :
    1 < (⟨10, 5, 1⟩ : GroundEffectParams).altitude /
        (⟨10, 5, 1⟩ : GroundEffectParams).wing_span ∧
    calculate_ground_effect_factor ⟨10, 5, 1⟩ = 1 :=
  ⟨by norm_num, ground_effect_factor_one_above_unity_ratio ⟨10, 5, 1⟩ (by norm_num)⟩

/-- C3 counterexample: at altitude = wing span = 5 the ratio is exactly 1
(so the claim "factor = 1.0 for altitude/span ≥ 1" applies), yet the factor
is `1 / (1 - 256/257) = 257`, not 1. -/
theorem ground_effect_factor_at_unity_ratio_ne_one :
    calculate_ground_effect_factor ⟨5, 5, 1⟩ = 257 ∧
    calculate_ground_effect_factor ⟨5, 5, 1⟩ ≠ 1 := by
  norm_num [calculate_ground_effect_factor]

/-- C4: evaluating the code at wing span 5 with altitudes 1.25 and 2.5
(ratios 0.25 and 0.5, both in (0,1)): the factor `1 / (1 - f)` simplifies to
`1 + (16 h/b)^2`, so it is 17 at the lower altitude and 65 at the higher
altitude.  The claim (and spec section 8) require the factor at the lower
altitude to be strictly greater; the code gives the opposite ordering, so
lift is augmented more the further the wing is from the ground. -/
theorem ground_effect_factor_grows_with_altitude_eval :
    calculate_ground_effect_factor ⟨5/4, 5, 1⟩ = 17 ∧
    calculate_ground_effect_factor ⟨5/2, 5, 1⟩ = 65 ∧
    ¬ (calculate_ground_effect_factor ⟨5/2, 5, 1⟩ <
        calculate_ground_effect_factor ⟨5/4, 5, 1⟩) := by
  norm_num [calculate_ground_effect_factor]

/-- C7: for every angle of attack the stall factor equals 1 when
`|angle| ≤ critical_angle`, is non-increasing in `|angle|` beyond the
critical angle (given a non-negative progression rate), and is bounded below
by the post-stall floor (the configured floor is 0.5; any floor ≤ 1 works). -/
theorem stall_factor_spec (c d r : ℚ) (hr : 0 ≤ r) (hd : d ≤ 1) :
    (∀ a, |a| ≤ c → calculate_stall_factor ⟨a, c, d, r⟩ = 1) ∧
    (∀ a b, c < |a| → |a| ≤ |b| →
      calculate_stall_factor ⟨b, c, d, r⟩ ≤ calculate_stall_factor ⟨a, c, d, r⟩) ∧
    (∀ a, d ≤ calculate_stall_factor ⟨a, c, d, r⟩) := by
  refine ⟨fun a ha => ?_, fun a b ha hab => ?_, fun a => ?_⟩
  · simp [calculate_stall_factor, ha]
  · have hb : c < |b| := lt_of_lt_of_le ha hab
    simp only [calculate_stall_factor]
    rw [if_neg (not_le.mpr ha), if_neg (not_le.mpr hb)]
    have h1 : max (|a| - c) 0 ≤ max (|b| - c) 0 := max_le_max (by linarith) le_rfl
    have h2 : min (max (|a| - c) 0 * r) 1 ≤ min (max (|b| - c) 0 * r) 1 :=
      min_le_min (mul_le_mul_of_nonneg_right h1 hr) le_rfl
    have h3 : min (max (|a| - c) 0 * r) 1 * (1 - d) ≤ min (max (|b| - c) 0 * r) 1 * (1 - d) :=
      mul_le_mul_of_nonneg_right h2 (by linarith)
    linarith
  · by_cases ha : |a| ≤ c
    · rw [(by simp [calculate_stall_factor, ha] :
        calculate_stall_factor ⟨a, c, d, r⟩ = 1)]
      linarith
    · simp only [calculate_stall_factor]
      rw [if_neg ha]
      have h1 : min (max (|a| - c) 0 * r) 1 ≤ 1 := min_le_right _ _
      have h4 : min (max (|a| - c) 0 * r) 1 * (1 - d) ≤ 1 * (1 - d) :=
        mul_le_mul_of_nonneg_right h1 (by linarith)
      linarith

/-- Witness for C7 with the configured floor 0.5 and rate 2 at critical
angle 1/4: the factor is 1 below the critical angle, non-increasing from
angle 1/2 to angle 1, and at least the floor at angle 3. -/
theorem stall_factor_spec_witness :
    (0:ℚ) ≤ 2 ∧ (1/2:ℚ) ≤ 1 ∧
    calculate_stall_factor ⟨1/8, 1/4, 1/2, 2⟩ = 1 ∧
    calculate_stall_factor ⟨1, 1/4, 1/2, 2⟩ ≤ calculate_stall_factor ⟨1/2, 1/4, 1/2, 2⟩ ∧
    (1/2:ℚ) ≤ calculate_stall_factor ⟨3, 1/4, 1/2, 2⟩ :=
  ⟨by norm_num, by norm_num,
   (stall_factor_spec (1/4) (1/2) 2 (by norm_num) (by norm_num)).1 (1/8)
     (by norm_num [abs_of_nonneg]),
   (stall_factor_spec (1/4) (1/2) 2 (by norm_num) (by norm_num)).2.1 (1/2) 1
     (by norm_num [abs_of_nonneg]) (by norm_num [abs_of_nonneg]),
   (stall_factor_spec (1/4) (1/2) 2 (by norm_num) (by norm_num)).2.2 3⟩

/-- C9: for non-negative thrust power and efficiency, the thrust force is the
thrust direction scaled by `thrust_power * efficiency` times the velocity
factor, the velocity factor always lies in `[1/5, 1]`, and the force never
points against the thrust direction (its dot product with the direction is
non-negative), no matter how large the airspeed along the thrust axis is. -/
theorem thrust_force_direction_spec (p : ThrustParams)
    (hp : 0 ≤ p.thrust_power) (he : 0 ≤ p.efficiency) :
    calculate_thrust_force p =
      Vec3.smul (p.thrust_power * p.efficiency * thrust_velocity_factor p)
        p.thrust_direction ∧
    1/5 ≤ thrust_velocity_factor p ∧ thrust_velocity_factor p ≤ 1 ∧
    0 ≤ Vec3.dot (calculate_thrust_force p) p.thrust_direction := by
  have hclamp0 : 0 ≤ clampQ (Vec3.dot p.velocity p.thrust_direction / 50) 0 (4/5) :=
    le_min (le_max_right _ _) (by norm_num)
  have hclamp1 : clampQ (Vec3.dot p.velocity p.thrust_direction / 50) 0 (4/5) ≤ 4/5 :=
    min_le_right _ _
  have hvf1 : 1/5 ≤ thrust_velocity_factor p := by
    unfold thrust_velocity_factor
    linarith
  have hvf2 : thrust_velocity_factor p ≤ 1 := by
    unfold thrust_velocity_factor
    linarith
  have heq : calculate_thrust_force p =
      Vec3.smul (p.thrust_power * p.efficiency * thrust_velocity_factor p)
        p.thrust_direction := rfl
  refine ⟨heq, hvf1, hvf2, ?_⟩
  rw [heq, Vec3.dot_smul_left]
  have hnn : 0 ≤ p.thrust_power * p.efficiency * thrust_velocity_factor p :=
    mul_nonneg (mul_nonneg hp he) (by linarith)
  exact mul_nonneg hnn (Vec3.dot_self_nonneg _)

/-- Witness for C9 at thrust power 500, efficiency 0.85, direction (0,0,1),
velocity (0,0,10). -/
theorem thrust_force_direction_spec_witness :
    (0:ℚ) ≤ thrust_params_example.thrust_power ∧
    (0:ℚ) ≤ thrust_params_example.efficiency ∧
    calculate_thrust_force thrust_params_example =
      Vec3.smul (thrust_params_example.thrust_power * thrust_params_example.efficiency *
        thrust_velocity_factor thrust_params_example) thrust_params_example.thrust_direction ∧
    1/5 ≤ thrust_velocity_factor thrust_params_example ∧
    thrust_velocity_factor thrust_params_example ≤ 1 ∧
    0 ≤ Vec3.dot (calculate_thrust_force thrust_params_example)
        thrust_params_example.thrust_direction := by
  have h := thrust_force_direction_spec thrust_params_example
    (by norm_num [thrust_params_example]) (by norm_num [thrust_params_example])
  exact ⟨by norm_num [thrust_params_example], by norm_num [thrust_params_example],
    h.1, h.2.1, h.2.2.1, h.2.2.2⟩

/-- C5: evaluating `calculate_lift_force` at a velocity of 1 m/s straight up
(magnitude 1, well above the 0.001 epsilon guard; the length function is
pinned to the true length 1 of that vector).  Because the velocity is
parallel to world-up, `world_up.cross(v)` is exactly the zero vector, and
normalizing the zero cross product yields NaN (`none`): the function is not
total on velocities above the epsilon guard, contrary to the claim. -/
theorem lift_force_nan_on_vertical_velocity :
    (1:ℚ)/1000 ≤ (fun _ : Vec3 => (1:ℚ)) lift_params_vertical.velocity ∧
    calculate_lift_force (fun _ => 1) lift_params_vertical (6/5) = none := by
  constructor
  · norm_num
  · norm_num [calculate_lift_force, normalizeOpt, lift_params_vertical, world_up,
      Vec3.cross, Vec3.smul, Vec3.zero, Vec3.mk.injEq]

/-- C10: whenever a running tick detects ground contact (post-integration
altitude ≤ ground_level = 1), the tick ends with the altitude exactly 1 and
the vertical velocity component exactly 0 — in every impact-speed branch
(the proof splits on all four classification branches for an arbitrary
impact speed `len`). -/
theorem ground_contact_clamps_altitude_and_vertical_speed (len : Vec3 → ℚ)
    (params : SimulationParams) (d : ℚ) (st : FlyerState)
    (hrun : params.is_running = true)
    (hhit : (integrated_translation params d st).y ≤ 1) :
    (update_flight_dynamics len params d st).translation.y = 1 ∧
    (update_flight_dynamics len params d st).dynamics.velocity.y = 0 ∧
    (update_flight_dynamics len params d st).flight_data.altitude = 1 ∧
    (update_flight_dynamics len params d st).flight_data.vertical_speed = 0 := by
  have hrun2 : ¬ (params.is_running = false) := by simp [hrun]
  have hc : (st.translation + Vec3.smul (d * params.simulation_speed)
      (st.dynamics.velocity + Vec3.smul (d * params.simulation_speed)
        st.dynamics.acceleration)).y ≤ 1 := by
    simpa [integrated_translation, integrated_velocity] using hhit
  unfold update_flight_dynamics resolve_ground_collision
  rw [if_neg hrun2]
  simp only [hc, if_true, ite_true]
  split_ifs <;> simp [Vec3.setY, Vec3.smul, Vec3.zero]

/-- Witness for C10: a flyer at ground level with impact speed 25 ends the
tick at altitude exactly 1 with vertical speed exactly 0. -/
theorem ground_contact_clamps_witness :
    run_params.is_running = true ∧
    (integrated_translation run_params 0 crash_state).y ≤ 1 ∧
    (update_flight_dynamics (fun _ => 25) run_params 0 crash_state).translation.y = 1 ∧
    (update_flight_dynamics (fun _ => 25) run_params 0 crash_state).dynamics.velocity.y = 0 ∧
    (update_flight_dynamics (fun _ => 25) run_params 0 crash_state).flight_data.altitude = 1 ∧
    (update_flight_dynamics (fun _ => 25) run_params 0 crash_state).flight_data.vertical_speed
      = 0 := by
  have h := ground_contact_clamps_altitude_and_vertical_speed (fun _ => 25) run_params 0
    crash_state rfl
    (by norm_num [integrated_translation, integrated_velocity, crash_state, run_params,
      Vec3.smul, Vec3.add_def, Vec3.zero])
  exact ⟨rfl, by norm_num [integrated_translation, integrated_velocity, crash_state,
    run_params, Vec3.smul, Vec3.add_def, Vec3.zero], h.1, h.2.1, h.2.2.1, h.2.2.2⟩

/-- C6: on a ground-contact tick, an impact speed of 25 m/s (above the hard
crash threshold 20) zeroes both velocity and acceleration, while an impact
speed of 1 m/s (below the soft threshold 3) only zeroes the vertical
velocity component, damps the remaining components by 0.95, and leaves the
acceleration unchanged. -/
theorem ground_impact_classification :
    (∀ (len : Vec3 → ℚ) (params : SimulationParams) (d : ℚ) (st : FlyerState),
      params.is_running = true →
      (integrated_translation params d st).y ≤ 1 →
      len (integrated_velocity params d st) = 25 →
      (update_flight_dynamics len params d st).dynamics.velocity = Vec3.zero ∧
      (update_flight_dynamics len params d st).dynamics.acceleration = Vec3.zero) ∧
    (∀ (len : Vec3 → ℚ) (params : SimulationParams) (d : ℚ) (st : FlyerState),
      params.is_running = true →
      (integrated_translation params d st).y ≤ 1 →
      len (integrated_velocity params d st) = 1 →
      (update_flight_dynamics len params d st).dynamics.velocity =
        Vec3.smul (19/20) (Vec3.setY (integrated_velocity params d st) 0) ∧
      (update_flight_dynamics len params d st).dynamics.acceleration =
        st.dynamics.acceleration) := by
  constructor
  all_goals intro len params d st hrun hhit hl
  all_goals
    have hrun2 : ¬ (params.is_running = false) := by simp [hrun]
  all_goals
    have hc : (st.translation + Vec3.smul (d * params.simulation_speed)
        (st.dynamics.velocity + Vec3.smul (d * params.simulation_speed)
          st.dynamics.acceleration)).y ≤ 1 := by
      simpa [integrated_translation, integrated_velocity] using hhit
  all_goals
    rw [integrated_velocity] at hl
  all_goals
    unfold update_flight_dynamics resolve_ground_collision
    rw [if_neg hrun2]
    simp only [hc, if_true, ite_true, hl]
    norm_num [integrated_velocity]

/-- Witness for C6: the crash branch at impact speed 25 and the gentle
touchdown branch at impact speed 1, both on concrete ground-level states. -/
theorem ground_impact_classification_witness :
    ((update_flight_dynamics (fun _ => 25) run_params 0 crash_state).dynamics.velocity =
      Vec3.zero ∧
    (update_flight_dynamics (fun _ => 25) run_params 0 crash_state).dynamics.acceleration =
      Vec3.zero) ∧
    ((update_flight_dynamics (fun _ => 1) run_params 0 touchdown_state).dynamics.velocity =
      Vec3.smul (19/20) (Vec3.setY (integrated_velocity run_params 0 touchdown_state) 0) ∧
    (update_flight_dynamics (fun _ => 1) run_params 0 touchdown_state).dynamics.acceleration =
      touchdown_state.dynamics.acceleration) :=
  ⟨ground_impact_classification.1 (fun _ => 25) run_params 0 crash_state rfl
    (by norm_num [integrated_translation, integrated_velocity, crash_state, run_params,
      Vec3.smul, Vec3.add_def, Vec3.zero]) rfl,
   ground_impact_classification.2 (fun _ => 1) run_params 0 touchdown_state rfl
    (by norm_num [integrated_translation, integrated_velocity, touchdown_state, run_params,
      Vec3.smul, Vec3.add_def, Vec3.zero]) rfl⟩

/-- C8 counterexample: a running tick with acceleration 0 and dt 0 on a flyer
standing at ground level (altitude exactly 1) with horizontal speed 1 does
NOT leave the velocity unchanged — the ground-contact branch fires and the
gentle-touchdown damping scales it to 0.95 m/s.  The length function is
pinned to the true lengths of the two vectors at which it is consulted. -/
theorem integrator_rest_tick_on_ground_changes_velocity :
    rest_on_ground_state.dynamics.acceleration = Vec3.zero ∧
    (update_flight_dynamics
        (fun v => if v = (⟨1, 0, 0⟩ : Vec3) then 1
          else if v = (⟨19/20, 0, 0⟩ : Vec3) then 19/20 else 0)
        run_params 0 rest_on_ground_state).dynamics.velocity ≠
      rest_on_ground_state.dynamics.velocity := by
  refine ⟨rfl, ?_⟩
  norm_num [update_flight_dynamics, resolve_ground_collision, rest_on_ground_state,
    run_params, Vec3.smul, Vec3.add_def, Vec3.zero, Vec3.setY, Vec3.mk.injEq]

/-- C8 (amended): a running integrator tick with acceleration 0 and dt 0
leaves position and velocity unchanged, provided the flyer stays above
ground level (altitude > 1) so the ground-contact branch does not fire. -/
theorem integrator_rest_tick_airborne_fixed (len : Vec3 → ℚ)
    (params : SimulationParams) (st : FlyerState)
    (hrun : params.is_running = true)
    (ha : st.dynamics.acceleration = Vec3.zero)
    (hy : 1 < st.translation.y) :
    (update_flight_dynamics len params 0 st).translation = st.translation ∧
    (update_flight_dynamics len params 0 st).dynamics.velocity = st.dynamics.velocity := by
  have hrun2 : ¬ (params.is_running = false) := by simp [hrun]
  have hy2 : ¬ (st.translation.y ≤ 1) := not_le.mpr hy
  unfold update_flight_dynamics
  rw [if_neg hrun2]
  simp only [zero_mul, Vec3.zero_smul_vec, Vec3.add_zero_vec, hy2, if_false, ite_false]
  exact ⟨trivial, trivial⟩

/-- Witness for C8 (amended) at an airborne flyer at altitude 5 coasting at
2 m/s. -/
theorem integrator_rest_tick_airborne_fixed_witness :
    run_params.is_running = true ∧
    airborne_rest_state.dynamics.acceleration = Vec3.zero ∧
    1 < airborne_rest_state.translation.y ∧
    (update_flight_dynamics (fun _ => 2) run_params 0 airborne_rest_state).translation =
      airborne_rest_state.translation ∧
    (update_flight_dynamics (fun _ => 2) run_params 0 airborne_rest_state).dynamics.velocity =
      airborne_rest_state.dynamics.velocity := by
  have h := integrator_rest_tick_airborne_fixed (fun _ => 2) run_params airborne_rest_state
    rfl rfl (by norm_num [airborne_rest_state])
  exact ⟨rfl, rfl, by norm_num [airborne_rest_state], h.1, h.2⟩

/-- C2: the two systems that read `SimulationParams` really are inert when
paused — `update_flight_dynamics` and `update_physics` return their input
state unchanged when `is_running = false` — but `apply_flight_stabilization`
reads no pause flag at all and still damps the velocity by 0.98 every frame:
a paused flyer coasting at 10 m/s has its velocity changed to 9.8 m/s, so
state does mutate while paused. -/
theorem stabilization_mutates_velocity_during_pause :
    (∀ (len : Vec3 → ℚ) (st : FlyerState) (d : ℚ),
      update_flight_dynamics len paused_params d st = st) ∧
    (∀ (len : Vec3 → ℚ) (sinQ : ℚ → ℚ) (piQ rad15q : ℚ)
      (flapThrust : FlappingWing → ℚ → ℚ → ℚ → Vec3) (atm : Atmosphere)
      (elapsed mass : ℚ) (wings : List WingEntity) (propulsion : Propulsion)
      (ty : ℚ) (dyn : FlightDynamics),
      update_physics_flyer len sinQ piQ rad15q flapThrust paused_params atm elapsed
        mass wings propulsion ty dyn = some dyn) ∧
    (apply_flight_stabilization_dynamics
        (fun v => if v = (⟨10, 0, 0⟩ : Vec3) then 10 else 0)
        FlightStabilizer.default dynamics_paused_drift).velocity = ⟨49/5, 0, 0⟩ ∧
    (apply_flight_stabilization_dynamics
        (fun v => if v = (⟨10, 0, 0⟩ : Vec3) then 10 else 0)
        FlightStabilizer.default dynamics_paused_drift).velocity ≠
      dynamics_paused_drift.velocity := by
  refine ⟨fun len st d => ?_, fun len sinQ piQ rad15q ft atm e m ws pr ty dyn => ?_, ?_, ?_⟩
  · simp [update_flight_dynamics, paused_params]
  · simp [update_physics_flyer, paused_params]
  · norm_num [apply_flight_stabilization_dynamics, FlightStabilizer.default,
      dynamics_paused_drift, Vec3.smul, Vec3.zero, Vec3.mk.injEq]
  · norm_num [apply_flight_stabilization_dynamics, FlightStabilizer.default,
      dynamics_paused_drift, Vec3.smul, Vec3.zero, Vec3.mk.injEq]

/-- C1: evaluating two consecutive `update_physics` force-accumulation ticks
on a stationary wingless flyer whose per-tick base thrust is 425 N along
(0,0,1).  After the first tick `forces.thrust` is (0,0,425), as the claim
says; after the second tick it is (0,0,850), not the (0,0,425) of that tick
alone — the thrust slot is never reset, so it carries the previous tick's
value and enters the net force (total (0, -784.8, 850)) and acceleration. -/
theorem thrust_force_record_accumulates_across_ticks :
    (force_tick dynamics_rest).map (fun dyn => dyn.forces.thrust) = some ⟨0, 0, 425⟩ ∧
    ((force_tick dynamics_rest).bind force_tick).map (fun dyn => dyn.forces.thrust) =
      some ⟨0, 0, 850⟩ ∧
    ((force_tick dynamics_rest).bind force_tick).map (fun dyn => dyn.forces.total) =
      some ⟨0, -(3924/5), 850⟩ := by
  norm_num [force_tick, update_physics_flyer, run_params, atmosphere_example,
    propulsion_example, dynamics_rest, Forces.default, calculate_thrust_force,
    thrust_velocity_factor, clampQ, Vec3.dot, Vec3.smul, Vec3.zero, Vec3.add_def,
    Vec3.mk.injEq, List.foldl]

end Ascent
